import Mathlib

/-!
Shallow embedding of the HealthCareSystem Go backend (backend/server.go,
backend/rbac.go, backend/repo.go, backend/models.go) for checking the
natural-language specification.

Timestamps are modelled as `Int` (the code only compares them with a total
order), machine integers as `Int` with explicit 64-bit bounds where the Go
standard library enforces them (`strconv.ParseInt`), and the Postgres store
as an explicit `DB` value.  Store failures that the Go code can observe
(a failed `Scan`, a failed query) are modelled by explicit failure flags.
-/

namespace HealthCare

/-- Roles accepted by the `X-Role` header (rbac.go 11-17). -/
inductive Role
  | admin
  | physician
  | patient
deriving DecidableEq, Repr

/-- `readRole` (rbac.go 19-27): the header value must be exactly one of the
three role strings; anything else (including absence, modelled as `""`) is
rejected. -/
def readRole (v : String) : Option Role :=
  if v = "admin" then some Role.admin
  else if v = "physician" then some Role.physician
  else if v = "patient" then some Role.patient
  else none

/-- Decimal digit value, as used by `strconv.ParseInt` for base 10. -/
def digitVal (c : Char) : Option Nat :=
  if c.isDigit then some (c.toNat - '0'.toNat) else none

/-- Value of a non-empty all-digit run; `none` if empty or any non-digit. -/
def digitsVal (l : List Char) : Option Nat :=
  if l.isEmpty then none
  else
    l.foldl (fun acc c =>
      match acc, digitVal c with
      | some n, some d => some (n * 10 + d)
      | _, _ => none) (some 0)

def int64Max : Int := 9223372036854775807

def int64Min : Int := -9223372036854775808

/-- Model of Go `strconv.ParseInt(s, 10, 64)` (also `strconv.Atoi` on a
64-bit platform): optional leading sign, then decimal digits, rejecting the
empty string and values outside the signed 64-bit range. -/
def parseInt64 (s : String) : Option Int :=
  let core : List Char → Bool → Option Int := fun l neg =>
    match digitsVal l with
    | none => none
    | some n =>
      let v : Int := if neg then -(n : Int) else (n : Int)
      if v < int64Min ∨ int64Max < v then none else some v
  match s.data with
  | [] => none
  | '+' :: rest => core rest false
  | '-' :: rest => core rest true
  | l => core l false

/-- `readUserID` (rbac.go 30-40): the `X-User-ID` header (empty string when
absent) must parse as a positive 64-bit integer. -/
def readUserID (s : String) : Except String Int :=
  if s = "" then Except.error "missing X-User-ID header"
  else
    match parseInt64 s with
    | none => Except.error "invalid X-User-ID header"
    | some id =>
      if id ≤ 0 then Except.error "invalid X-User-ID header" else Except.ok id

/-- Row of the `drugs` table (db/schema.sql). -/
structure DrugRow where
  id : Int
  name : String
deriving DecidableEq, Repr

/-- Row of the `prescriptions` table (db/schema.sql); `prescribedAt` is the
store-assigned timestamp. -/
structure RxRow where
  id : Int
  patientId : Int
  physicianId : Int
  drugId : Int
  quantity : Int
  sig : String
  prescribedAt : Int
deriving DecidableEq, Repr

/-- The relational store: one field per table, plus the next values of the
`BIGSERIAL` id sequences. -/
structure DB where
  patients : List (Int × String)
  physicians : List (Int × String)
  drugs : List DrugRow
  links : List (Int × Int)
  prescriptions : List RxRow
  nextDrugId : Int
  nextRxId : Int
deriving DecidableEq, Repr

/-- Outcome of `pgx.Row.Scan` on a single-row query: either a row was
delivered, or an error occurred (`pgx.ErrNoRows` when the query matched
nothing, or any query/connection failure, injected here via `dbFail`). -/
inductive ScanResult
  | row
  | err
deriving DecidableEq, Repr

/-- The `SELECT 1 FROM physician_patients WHERE ... LIMIT 1` scan of
`PGRepo.IsPhysicianPatientLinked` (repo.go 98-99). -/
def scanLinkRow (db : DB) (dbFail : Bool) (phy pat : Int) : ScanResult :=
  if dbFail then ScanResult.err
  else if (phy, pat) ∈ db.links then ScanResult.row
  else ScanResult.err

/-- `PGRepo.IsPhysicianPatientLinked` (repo.go 97-105): any `Scan` error —
no matching row as well as a genuine query failure — yields `(false, nil)`;
a delivered row yields `(true, nil)`. -/
def isPhysicianPatientLinked (db : DB) (dbFail : Bool) (phy pat : Int) :
    Bool × Option String :=
  match scanLinkRow db dbFail phy pat with
  | ScanResult.err => (false, none)
  | ScanResult.row => (true, none)

/-- Success semantics of the `INSERT ... ON CONFLICT (name) DO UPDATE SET
name = EXCLUDED.name RETURNING id` upsert of `PGRepo.FindOrCreateDrug`
(repo.go 129-134): `drugs.name` is `UNIQUE`, so the statement returns the
existing row's id when the name is present and otherwise inserts a fresh
row with the next sequence id. -/
def drugUpsert (db : DB) (name : String) : Int × DB :=
  match db.drugs.find? (fun d => d.name == name) with
  | some d => (d.id, db)
  | none =>
    (db.nextDrugId,
      { db with
        drugs := db.drugs ++ [⟨db.nextDrugId, name⟩],
        nextDrugId := db.nextDrugId + 1 })

/-- `PGRepo.FindOrCreateDrug` (repo.go 127-140): a failed query surfaces as
an error; otherwise the upsert result is returned. -/
def findOrCreateDrug (db : DB) (dbFail : Bool) (name : String) :
    Except String (Int × DB) :=
  if dbFail then Except.error "query failed"
  else Except.ok (drugUpsert db name)

/-- Aggregate row returned by the top-drugs query (models.go 19-23). -/
structure TopDrug where
  drugId : Int
  drugName : String
  totalQty : Int
deriving DecidableEq, Repr

/-- The `WHERE pr.prescribed_at >= $1 AND pr.prescribed_at < $2` range test
of `PGRepo.TopDrugs` (repo.go 72), together with the optional
`AND pr.patient_id = $3` restriction (repo.go 75-78). -/
def rxInRange (tFrom tTo : Int) (pid : Option Int) (p : RxRow) : Bool :=
  decide (tFrom ≤ p.prescribedAt) && decide (p.prescribedAt < tTo) &&
    (match pid with
     | none => true
     | some x => p.patientId == x)

/-- Prescriptions selected by the top-drugs query before grouping. -/
def tdMatching (db : DB) (tFrom tTo : Int) (pid : Option Int) : List RxRow :=
  db.prescriptions.filter (rxInRange tFrom tTo pid)

/-- `ORDER BY total_qty DESC, d.id ASC` (repo.go 79). -/
def tdLE (a b : TopDrug) : Prop :=
  b.totalQty < a.totalQty ∨ (a.totalQty = b.totalQty ∧ a.drugId ≤ b.drugId)

instance : DecidableRel tdLE := fun _ _ =>
  inferInstanceAs (Decidable (_ ∨ _))

instance : IsTotal TopDrug tdLE :=
  ⟨by intro a b; unfold tdLE; omega⟩

instance : IsTrans TopDrug tdLE :=
  ⟨by intro a b c; unfold tdLE; omega⟩

/-- The `JOIN drugs d ON d.id = pr.drug_id ... GROUP BY d.id, d.name` step
of `PGRepo.TopDrugs` (repo.go 69-79): one aggregate row per drug that has at
least one selected prescription, carrying the quantity sum of its group. -/
def tdGroups (db : DB) (tFrom tTo : Int) (pid : Option Int) : List TopDrug :=
  db.drugs.filterMap (fun d =>
    if ((tdMatching db tFrom tTo pid).filter (fun p => p.drugId == d.id)).isEmpty
    then none
    else some ⟨d.id, d.name,
      (((tdMatching db tFrom tTo pid).filter
          (fun p => p.drugId == d.id)).map (fun p => p.quantity)).sum⟩)

/-- `PGRepo.TopDrugs` (repo.go 66-95): group, order, truncate to `LIMIT`. -/
def topDrugs (db : DB) (tFrom tTo : Int) (limit : Int) (pid : Option Int) :
    List TopDrug :=
  (List.insertionSort tdLE (tdGroups db tFrom tTo pid)).take limit.toNat

/-- Denormalized prescription row returned by `PGRepo.ListPrescriptions`
(repo.go 175-184, models.go 6-17). -/
structure RxView where
  id : Int
  patientId : Int
  patientName : String
  physicianId : Int
  physicianName : String
  drugId : Int
  drugName : String
  quantity : Int
  sig : String
  prescribedAt : Int
deriving DecidableEq, Repr

/-- `ListPrescriptionsFilter` (repo.go 163-168). -/
structure ListFilter where
  patientId : Option Int
  physicianId : Option Int
  limit : Int
deriving DecidableEq, Repr

/-- The defensive clamp at the top of `PGRepo.ListPrescriptions`
(repo.go 171-174): out-of-range or unset (zero) limits fall back to 50. -/
def effLimit (l : Int) : Nat :=
  if l ≤ 0 ∨ 200 < l then 50 else l.toNat

/-- Name lookup through a primary-key join (`JOIN patients p ON p.id = ...`,
`JOIN physicians ph ON ph.id = ...`, repo.go 182-183). -/
def lookupName (rows : List (Int × String)) (i : Int) : Option String :=
  (rows.find? (fun r => r.1 == i)).map (fun r => r.2)

/-- The optional `AND pr.patient_id = ...` / `AND pr.physician_id = ...`
conjuncts of `PGRepo.ListPrescriptions` (repo.go 187-194). -/
def rxMatchesFilter (f : ListFilter) (p : RxRow) : Bool :=
  (match f.patientId with
   | none => true
   | some x => p.patientId == x) &&
  (match f.physicianId with
   | none => true
   | some x => p.physicianId == x)

/-- The three inner joins of `PGRepo.ListPrescriptions` (repo.go 181-184):
a prescription row joins to its patient, physician and drug names; rows with
a dangling reference are dropped (impossible under the FK constraints). -/
def rxJoin (db : DB) (p : RxRow) : Option RxView :=
  match lookupName db.patients p.patientId,
        lookupName db.physicians p.physicianId,
        db.drugs.find? (fun d => d.id == p.drugId) with
  | some pn, some phn, some d =>
    some ⟨p.id, p.patientId, pn, p.physicianId, phn, p.drugId, d.name,
          p.quantity, p.sig, p.prescribedAt⟩
  | _, _, _ => none

/-- `ORDER BY pr.prescribed_at DESC, pr.id DESC` (repo.go 195). -/
def rxLE (a b : RxView) : Prop :=
  b.prescribedAt < a.prescribedAt ∨
    (a.prescribedAt = b.prescribedAt ∧ b.id ≤ a.id)

instance : DecidableRel rxLE := fun _ _ =>
  inferInstanceAs (Decidable (_ ∨ _))

instance : IsTotal RxView rxLE :=
  ⟨by intro a b; unfold rxLE; omega⟩

instance : IsTrans RxView rxLE :=
  ⟨by intro a b c; unfold rxLE; omega⟩

/-- `PGRepo.ListPrescriptions` (repo.go 170-215): filter, join, order,
truncate to the clamped limit. -/
def listPrescriptions (db : DB) (f : ListFilter) : List RxView :=
  (List.insertionSort rxLE
    ((db.prescriptions.filter (rxMatchesFilter f)).filterMap (rxJoin db))).take
    (effLimit f.limit)

/-- Error kinds of `PGRepo.CreatePrescription` (repo.go 53-61): a
foreign-key violation (code 23503) is translated to `ErrInvalidReference`,
anything else propagates. -/
inductive CreateErr
  | invalidRef
  | other
deriving DecidableEq, Repr

/-- Foreign-key constraints of the `prescriptions` table (db/schema.sql). -/
def refsExist (db : DB) (patientId physicianId drugId : Int) : Bool :=
  (db.patients.any (fun r => r.1 == patientId)) &&
  (db.physicians.any (fun r => r.1 == physicianId)) &&
  (db.drugs.any (fun d => d.id == drugId))

/-- `PGRepo.CreatePrescription` (repo.go 44-64): the insert assigns the next
sequence id and the store clock `now` (`prescribed_at ... DEFAULT NOW()`);
a dangling reference yields `invalidRef`, an injected store failure yields
`other`. -/
def createPrescription (db : DB) (dbFail : Bool) (now : Int)
    (patientId physicianId drugId quantity : Int) (sig : String) :
    Except CreateErr (RxRow × DB) :=
  if dbFail then Except.error CreateErr.other
  else if refsExist db patientId physicianId drugId then
    let row : RxRow :=
      ⟨db.nextRxId, patientId, physicianId, drugId, quantity, sig, now⟩
    Except.ok (row,
      { db with
        prescriptions := db.prescriptions ++ [row],
        nextRxId := db.nextRxId + 1 })
  else Except.error CreateErr.invalidRef

/-- `createPrescriptionReq` (server.go 126-133); the decoded JSON body. -/
structure CreateBody where
  patientId : Int
  physicianId : Int
  drugId : Int
  drugName : String
  quantity : Int
  sig : String
deriving DecidableEq, Repr

/-- `createPrescriptionReq.validate` (server.go 135-151), first failing rule
wins.  Go `len` is the byte length; we model it with the character length,
which agrees on the ASCII inputs the claims are about. -/
def validate (b : CreateBody) : Option String :=
  if b.patientId ≤ 0 then some "patient_id must be > 0"
  else if b.physicianId ≤ 0 then some "physician_id must be > 0"
  else if b.drugId ≤ 0 ∧ b.drugName.length = 0 then
    some "either drug_id (>0) or drug_name is required"
  else if b.drugId ≤ 0 ∧ 200 < b.drugName.length then
    some "drug_name too long"
  else if b.quantity ≤ 0 then some "quantity must be > 0"
  else if b.sig.length = 0 then some "sig is required"
  else if 500 < b.sig.length then some "sig too long"
  else none

def isSpaceTab (c : Char) : Bool :=
  c == ' ' || c == '\t'

/-- The two trim loops of handlePrescriptions (server.go 209-210): strip
leading and trailing spaces and tabs. -/
def trimST (s : String) : String :=
  String.mk (((s.data.dropWhile isSpaceTab).reverse.dropWhile isSpaceTab).reverse)

/-- An inbound HTTP request as the handlers observe it.  Header and query
values are the strings returned by Go's `Header.Get` / `URL.Query().Get`,
which yield `""` when the header/parameter is absent; `body = none` models a
JSON body that fails to decode. -/
structure Request where
  method : String
  xRole : String
  xUserId : String
  body : Option CreateBody
  qLimit : String
  qPatientId : String
  qPhysicianId : String
  qFrom : String
  qTo : String
deriving DecidableEq, Repr

/-- Response payloads the modelled handlers can produce. -/
inductive RespBody
  | err (msg : String)
  | created (p : RxRow)
  | listOk (items : List RxView) (limit : Int)
  | topOk (tFrom tTo : Int) (limit : Int) (items : List TopDrug)
deriving DecidableEq, Repr

structure Resp where
  status : Nat
  body : RespBody
deriving DecidableEq, Repr

/-- `writeError` (server.go 159-161). -/
def errResp (status : Nat) (msg : String) : Resp :=
  ⟨status, RespBody.err msg⟩

/-- One store round trip issued by a handler, recorded in order. -/
inductive StoreCall
  | linkCheck (phy pat : Int)
  | drugUpsertCall (name : String)
  | insertRx
  | listQuery (f : ListFilter)
  | topQuery (tFrom tTo : Int) (limit : Int) (pid : Option Int)
deriving DecidableEq, Repr

/-- Injectable store failures, one per fallible repository call used by the
create flow. -/
structure StoreFail where
  linkFail : Bool
  drugFail : Bool
  insertFail : Bool
deriving DecidableEq, Repr

def noFail : StoreFail := ⟨false, false, false⟩

/-- Drug-id resolution step of the create flow (server.go 203-215): use a
positive `drug_id` as-is, otherwise trim the name and find-or-create. -/
def resolveDrug (db : DB) (dbFail : Bool) (b : CreateBody) :
    Except Resp (Int × DB) × List StoreCall :=
  if b.drugId ≤ 0 then
    if b.drugName = "" then
      (Except.error
        (errResp 400 "drug_name is required when drug_id is not provided"), [])
    else if trimST b.drugName = "" then
      (Except.error (errResp 400 "drug_name cannot be blank"), [])
    else
      match findOrCreateDrug db dbFail (trimST b.drugName) with
      | Except.error _ =>
        (Except.error (errResp 500 "failed to resolve drug"),
         [StoreCall.drugUpsertCall (trimST b.drugName)])
      | Except.ok (id, db1) =>
        (Except.ok (id, db1), [StoreCall.drugUpsertCall (trimST b.drugName)])
  else (Except.ok (b.drugId, db), [])

/-- POST flow of `handlePrescriptions` (server.go 173-231): role gate,
caller id, body decode, validation, self-check, link check, drug
resolution, insert.  Returns the response, the store calls made, and the
store state left behind. -/
def handleCreate (db : DB) (sf : StoreFail) (now : Int) (r : Request) :
    Resp × List StoreCall × DB :=
  match readRole r.xRole with
  | none => (errResp 401 "invalid or missing X-Role header", [], db)
  | some role =>
    if role ≠ Role.physician then
      (errResp 403 "only physicians may create prescriptions", [], db)
    else
      match readUserID r.xUserId with
      | Except.error m => (errResp 401 m, [], db)
      | Except.ok callerId =>
        match r.body with
        | none => (errResp 400 "invalid JSON body", [], db)
        | some b =>
          match validate b with
          | some msg => (errResp 400 msg, [], db)
          | none =>
            if b.physicianId ≠ callerId then
              (errResp 403 "physicians may only create as themselves", [], db)
            else
              match isPhysicianPatientLinked db sf.linkFail callerId b.patientId with
              | (_, some _) =>
                (errResp 500 "link check failed",
                 [StoreCall.linkCheck callerId b.patientId], db)
              | (linked, none) =>
                if ¬ linked then
                  (errResp 403 "physician not linked to patient",
                   [StoreCall.linkCheck callerId b.patientId], db)
                else
                  match resolveDrug db sf.drugFail b with
                  | (Except.error e, tr) =>
                    (e, StoreCall.linkCheck callerId b.patientId :: tr, db)
                  | (Except.ok (drugId, db1), tr) =>
                    match createPrescription db1 sf.insertFail now
                        b.patientId b.physicianId drugId b.quantity b.sig with
                    | Except.error CreateErr.invalidRef =>
                      (errResp 400 "invalid patient_id, physician_id, or drug_id",
                       StoreCall.linkCheck callerId b.patientId ::
                         (tr ++ [StoreCall.insertRx]), db1)
                    | Except.error CreateErr.other =>
                      (errResp 500 "failed to create prescription",
                       StoreCall.linkCheck callerId b.patientId ::
                         (tr ++ [StoreCall.insertRx]), db1)
                    | Except.ok (row, db2) =>
                      (⟨201, RespBody.created row⟩,
                       StoreCall.linkCheck callerId b.patientId ::
                         (tr ++ [StoreCall.insertRx]), db2)

/-- Limit parsing of `handleListPrescriptions` (server.go 237-242): absent
(empty) means the default 50; otherwise the value must parse and lie in
1..200, else the request is rejected. -/
def listLimit (ls : String) : Option Int :=
  if ls = "" then some 50
  else
    match parseInt64 ls with
    | some n => if 0 < n ∧ n ≤ 200 then some n else none
    | none => none

/-- Optional admin query filter parsing (server.go 254-259): absent (empty)
means no filter; otherwise the value must parse to a positive integer. -/
def adminIdFilter (v : String) : Except Unit (Option Int) :=
  if v = "" then Except.ok none
  else
    match parseInt64 v with
    | some n => if 0 < n then Except.ok (some n) else Except.error ()
    | none => Except.error ()

/-- `handleListPrescriptions` (server.go 234-264). -/
def handleList (db : DB) (r : Request) : Resp × List StoreCall :=
  match readRole r.xRole with
  | none => (errResp 401 "invalid or missing X-Role header", [])
  | some role =>
    match listLimit r.qLimit with
    | none => (errResp 400 "limit must be 1..200", [])
    | some limit =>
      match role with
      | Role.patient =>
        match readUserID r.xUserId with
        | Except.error m => (errResp 401 m, [])
        | Except.ok id =>
          let f : ListFilter := ⟨some id, none, limit⟩
          (⟨200, RespBody.listOk (listPrescriptions db f) limit⟩,
           [StoreCall.listQuery f])
      | Role.physician =>
        match readUserID r.xUserId with
        | Except.error m => (errResp 401 m, [])
        | Except.ok id =>
          let f : ListFilter := ⟨none, some id, limit⟩
          (⟨200, RespBody.listOk (listPrescriptions db f) limit⟩,
           [StoreCall.listQuery f])
      | Role.admin =>
        match adminIdFilter r.qPatientId with
        | Except.error _ => (errResp 400 "invalid patient_id", [])
        | Except.ok pidF =>
          match adminIdFilter r.qPhysicianId with
          | Except.error _ => (errResp 400 "invalid physician_id", [])
          | Except.ok phidF =>
            let f : ListFilter := ⟨pidF, phidF, limit⟩
            (⟨200, RespBody.listOk (listPrescriptions db f) limit⟩,
             [StoreCall.listQuery f])

/-- `/prescriptions` dispatch (server.go 163-172): GET lists, POST creates,
anything else is rejected. -/
def handlePrescriptions (db : DB) (sf : StoreFail) (now : Int) (r : Request) :
    Resp × List StoreCall × DB :=
  if r.method = "GET" then
    let (resp, tr) := handleList db r
    (resp, tr, db)
  else if r.method ≠ "POST" then
    (errResp 405 "method not allowed", [], db)
  else handleCreate db sf now r

/-- Limit parsing of `handleTopDrugs` (server.go 377-385): default 10,
accepted range 1..100. -/
def topLimit (ls : String) : Option Int :=
  if ls = "" then some 10
  else
    match parseInt64 ls with
    | some n => if 0 < n ∧ n ≤ 100 then some n else none
    | none => none

/-- `handleTopDrugs` (server.go 356-402).  RFC3339 parsing is delegated to
Go's `time.Parse`, abstracted here as `parse`; `to.After(from)` is the
strict order on parsed instants. -/
def handleTopDrugs (parse : String → Option Int) (db : DB) (r : Request) :
    Resp × List StoreCall :=
  if r.method ≠ "GET" then (errResp 405 "method not allowed", [])
  else
    match readRole r.xRole with
    | none => (errResp 401 "invalid or missing X-Role header", [])
    | some role =>
      if r.qFrom = "" ∨ r.qTo = "" then
        (errResp 400
          "from and to query params are required (RFC3339 date or datetime)", [])
      else
        match parse r.qFrom, parse r.qTo with
        | some f, some t =>
          if ¬ f < t then (errResp 400 "invalid from/to range", [])
          else
            match topLimit r.qLimit with
            | none => (errResp 400 "limit must be 1..100", [])
            | some limit =>
              match role with
              | Role.patient =>
                match readUserID r.xUserId with
                | Except.error m => (errResp 401 m, [])
                | Except.ok id =>
                  (⟨200, RespBody.topOk f t limit (topDrugs db f t limit (some id))⟩,
                   [StoreCall.topQuery f t limit (some id)])
              | _ =>
                (⟨200, RespBody.topOk f t limit (topDrugs db f t limit none)⟩,
                 [StoreCall.topQuery f t limit none])
        | _, _ => (errResp 400 "invalid from/to range", [])

/-- Store invariant: `drugs.name` is `UNIQUE` (db/schema.sql). -/
def drugNamesUnique (db : DB) : Prop :=
  (db.drugs.map (fun d => d.name)).Nodup

/-- Store invariant: `CHECK (quantity > 0)` on `prescriptions`
(db/schema.sql). -/
def quantitiesPositive (db : DB) : Prop :=
  ∀ p ∈ db.prescriptions, 0 < p.quantity

/-- Patient scoping rule of `handleTopDrugs` (server.go 387-392): patients
get their own id as a forced filter, other roles get none. -/
def roleScope (role : Role) (n : Int) : Option Int :=
  if role = Role.patient then some n else none

/- Concrete inputs used to instantiate the theorems below. -/

def dbEmpty : DB := ⟨[], [], [], [], [], 1, 1⟩

def parseW : String → Option Int := fun s =>
  if s = "2025-01-01T00:00:00Z" then some 0
  else if s = "2025-12-31T00:00:00Z" then some 100
  else none

def c1req : Request :=
  ⟨"GET", "patient", "42", none, "", "", "",
   "2025-01-01T00:00:00Z", "2025-12-31T00:00:00Z"⟩

def c2req : Request :=
  ⟨"POST", "physician", "1", some ⟨1, 2, 1, "", 1, "x"⟩, "", "", "", "", ""⟩

def c3req : Request :=
  ⟨"POST", "admin", "7", some ⟨1, 1, 1, "", 1, "x"⟩, "", "", "", "", ""⟩

/-- Physician 1 exists but is NOT linked to patient 2. -/
def c4db : DB := ⟨[(2, "Alice")], [(1, "Dr")], [], [], [], 1, 1⟩

/-- Whitespace-only `drug_name`, no `drug_id`. -/
def c4req : Request :=
  ⟨"POST", "physician", "1", some ⟨2, 1, 0, "   ", 5, "x"⟩, "", "", "", "", ""⟩

/-- Physician 1 linked to patient 2. -/
def c4wdb : DB := ⟨[(2, "Alice")], [(1, "Dr")], [], [(1, 2)], [], 1, 1⟩

def c5db : DB := ⟨[(2, "Alice")], [(1, "Dr")], [], [(1, 2)], [], 1, 1⟩

def c5req : Request :=
  ⟨"POST", "physician", "1", some ⟨2, 1, 1, "", 5, "x"⟩, "", "", "", "", ""⟩

def c6db : DB := ⟨[], [], [⟨1, "Amoxicillin"⟩], [], [], 2, 1⟩

/-- One drug; prescriptions exactly at `from = 0` and exactly at `to = 10`. -/
def c7db : DB :=
  ⟨[(1, "Alice")], [(1, "Dr")], [⟨1, "Amoxicillin"⟩], [(1, 1)],
   [⟨1, 1, 1, 1, 20, "s", 0⟩, ⟨2, 1, 1, 1, 30, "s", 10⟩], 2, 3⟩

/-- `limit=0` present, but the `X-Role` header is absent. -/
def c8req : Request := ⟨"GET", "", "", none, "0", "", "", "", ""⟩

def c8r1 : Request := ⟨"GET", "admin", "", none, "0", "", "", "", ""⟩

def c8r2 : Request :=
  ⟨"GET", "admin", "", none, "101", "", "",
   "2025-01-01T00:00:00Z", "2025-12-31T00:00:00Z"⟩

/-- Physician 1 linked to patient 1; no drugs yet. -/
def c10db : DB := ⟨[(1, "Alice")], [(1, "Dr")], [], [(1, 1)], [], 1, 1⟩

def c10reqA : Request :=
  ⟨"POST", "physician", "1", some ⟨1, 1, 0, "Aspirin", 1, "x"⟩, "", "", "", "", ""⟩

/-- Identical to `c10reqA` except for the letter case of `drug_name`. -/
def c10reqB : Request :=
  ⟨"POST", "physician", "1", some ⟨1, 1, 0, "aspirin", 1, "x"⟩, "", "", "", "", ""⟩

def c10db1 : DB := (handlePrescriptions c10db noFail 0 c10reqA).2.2

def c10db2 : DB := (handlePrescriptions c10db1 noFail 0 c10reqB).2.2

/-- C1: on `GET /analytics/top-drugs`, once the range and limit parse, a
patient caller with valid `X-User-ID = n` causes the `TopDrugs` aggregation
to be invoked with `patientID = n` even though no patient filter appears in
the query string, while admin and physician callers cause it to be invoked
with no patient restriction (`roleScope`). -/
theorem topdrugs_forced_patient_scope (parse : String → Option Int) (db : DB)
    (r : Request) (role : Role) (n f t limit : Int)
    (hm : r.method = "GET") (hrole : readRole r.xRole = some role)
    (hf : r.qFrom ≠ "") (ht : r.qTo ≠ "")
    (hpf : parse r.qFrom = some f) (hpt : parse r.qTo = some t) (hlt : f < t)
    (hlim : topLimit r.qLimit = some limit)
    (hid : role = Role.patient → readUserID r.xUserId = Except.ok n) :
    (handleTopDrugs parse db r).2 =
      [StoreCall.topQuery f t limit (roleScope role n)] := by
  cases role with
  | patient =>
    have hid' := hid rfl
    simp [handleTopDrugs, hm, hrole, hf, ht, hpf, hpt, hlt, hlim, hid', roleScope]
  | admin =>
    simp [handleTopDrugs, hm, hrole, hf, ht, hpf, hpt, hlt, hlim, roleScope]
  | physician =>
    simp [handleTopDrugs, hm, hrole, hf, ht, hpf, hpt, hlt, hlim, roleScope]

/-- Witness for C1: patient #42 requesting the 2025 range. -/
theorem topdrugs_forced_patient_scope_witness :
    (handleTopDrugs parseW dbEmpty c1req).2 =
      [StoreCall.topQuery 0 100 10 (roleScope Role.patient 42)] :=
  topdrugs_forced_patient_scope parseW dbEmpty c1req Role.patient 42 0 100 10
    (by decide) (by decide) (by decide) (by decide) (by decide) (by decide)
    (by decide) (by decide) (fun _ => rfl)

/-- C2: a physician whose valid body carries `physician_id ≠ caller` gets
403 "physicians may only create as themselves", and no store call is made —
in particular the outcome is independent of whether a physician-patient
link exists (the store `db` and failure flags `sf` are arbitrary). -/
theorem create_requires_self (db : DB) (sf : StoreFail) (now : Int)
    (r : Request) (caller : Int) (b : CreateBody)
    (hm : r.method = "POST")
    (hrole : readRole r.xRole = some Role.physician)
    (hid : readUserID r.xUserId = Except.ok caller)
    (hb : r.body = some b) (hv : validate b = none)
    (hne : b.physicianId ≠ caller) :
    (handlePrescriptions db sf now r).1 =
      errResp 403 "physicians may only create as themselves" ∧
    (handlePrescriptions db sf now r).2.1 = [] := by
  constructor <;>
    simp [handlePrescriptions, handleCreate, hm, hrole, hid, hb, hv, hne]

/-- Witness for C2: caller 1 submitting a body with `physician_id = 2`. -/
theorem create_requires_self_witness :
    (handlePrescriptions dbEmpty noFail 0 c2req).1 =
      errResp 403 "physicians may only create as themselves" ∧
    (handlePrescriptions dbEmpty noFail 0 c2req).2.1 = [] :=
  create_requires_self dbEmpty noFail 0 c2req 1 ⟨1, 2, 1, "", 1, "x"⟩
    (by decide) (by decide) rfl (by decide) (by decide) (by decide)

/-- C3: a POST to /prescriptions with `X-Role` admin or patient is answered
403 "only physicians may create prescriptions" before the `X-User-ID`
header or the body is even looked at: the user-id string and the body are
arbitrary (including an undecodable body) and no store call is made. -/
theorem create_forbidden_for_admin_and_patient (db : DB) (sf : StoreFail)
    (now : Int) (r : Request)
    (hm : r.method = "POST")
    (h : r.xRole = "admin" ∨ r.xRole = "patient") :
    (handlePrescriptions db sf now r).1 =
      errResp 403 "only physicians may create prescriptions" ∧
    (handlePrescriptions db sf now r).2.1 = [] := by
  cases h with
  | inl h => constructor <;> simp [handlePrescriptions, handleCreate, hm, h, readRole]
  | inr h => constructor <;> simp [handlePrescriptions, handleCreate, hm, h, readRole]

/-- Witness for C3: an admin with a fully valid body is still refused. -/
theorem create_forbidden_for_admin_and_patient_witness :
    (handlePrescriptions dbEmpty noFail 0 c3req).1 =
      errResp 403 "only physicians may create prescriptions" ∧
    (handlePrescriptions dbEmpty noFail 0 c3req).2.1 = [] :=
  create_forbidden_for_admin_and_patient dbEmpty noFail 0 c3req
    (by decide) (Or.inl (by decide))

/-- Counterexample to C4: a request whose `drug_name` is non-empty but
whitespace-only is NOT always answered 400, and the blank-name check is not
made before store calls: when the caller is not linked to the patient the
store-backed link check runs first and the response is 403. -/
theorem blank_drugname_not_rejected_before_store :
    (handlePrescriptions c4db noFail 0 c4req).1 =
      errResp 403 "physician not linked to patient" ∧
    (handlePrescriptions c4db noFail 0 c4req).1.status ≠ 400 ∧
    (handlePrescriptions c4db noFail 0 c4req).2.1 =
      [StoreCall.linkCheck 1 2] := by decide

/-- A body that passes validation with no positive drug id has a non-empty
(pre-trim) `drug_name` (server.go 139-146). -/
theorem validate_drugname_nonempty (b : CreateBody)
    (hv : validate b = none) (hdid : b.drugId ≤ 0) : b.drugName ≠ "" := by
  intro h
  unfold validate at hv
  split_ifs at hv
  simp_all

/-- C4 amended: a whitespace-only `drug_name` (with no positive `drug_id`)
is answered 400 "drug_name cannot be blank", but only after the RBAC checks
have passed: the store-backed link check runs first (it is the sole store
call in the trace) and the store is left unchanged.  When the link check
denies, a 403 takes precedence (see the counterexample). -/
theorem blank_drugname_rejected_after_linkcheck (db : DB) (sf : StoreFail)
    (now : Int) (r : Request) (caller : Int) (b : CreateBody)
    (hm : r.method = "POST") (hrole : readRole r.xRole = some Role.physician)
    (hid : readUserID r.xUserId = Except.ok caller)
    (hb : r.body = some b) (hv : validate b = none)
    (hself : b.physicianId = caller) (hnf : sf.linkFail = false)
    (hlinked : (caller, b.patientId) ∈ db.links)
    (hdid : b.drugId ≤ 0) (hblank : trimST b.drugName = "") :
    (handlePrescriptions db sf now r).1 =
      errResp 400 "drug_name cannot be blank" ∧
    (handlePrescriptions db sf now r).2.1 =
      [StoreCall.linkCheck caller b.patientId] ∧
    (handlePrescriptions db sf now r).2.2 = db := by
  have hne : b.drugName ≠ "" := validate_drugname_nonempty b hv hdid
  have hlink : isPhysicianPatientLinked db sf.linkFail caller b.patientId =
      (true, none) := by
    simp [isPhysicianPatientLinked, scanLinkRow, hnf, hlinked]
  refine ⟨?_, ?_, ?_⟩ <;>
    simp [handlePrescriptions, handleCreate, hm, hrole, hid, hb, hv, hself,
      hlink, resolveDrug, hdid, hne, hblank]

/-- Witness for the amended C4: linked physician 1, patient 2,
`drug_name = "   "`. -/
theorem blank_drugname_rejected_after_linkcheck_witness :
    (handlePrescriptions c4wdb noFail 0 c4req).1 =
      errResp 400 "drug_name cannot be blank" ∧
    (handlePrescriptions c4wdb noFail 0 c4req).2.1 =
      [StoreCall.linkCheck 1 2] ∧
    (handlePrescriptions c4wdb noFail 0 c4req).2.2 = c4wdb :=
  blank_drugname_rejected_after_linkcheck c4wdb noFail 0 c4req 1
    ⟨2, 1, 0, "   ", 5, "x"⟩ (by decide) (by decide) rfl (by decide)
    (by decide) (by decide) (by decide) (by decide) (by decide) (by decide)

/-- The error component of the modelled `IsPhysicianPatientLinked` is
`none` whatever the store holds and whether or not the scan fails. -/
theorem isLinked_snd_none (db : DB) (bfail : Bool) (phy pat : Int) :
    (isPhysicianPatientLinked db bfail phy pat).2 = none := by
  unfold isPhysicianPatientLinked
  cases scanLinkRow db bfail phy pat <;> rfl

/-- Every error `resolveDrug` can produce differs from the link-check 500. -/
theorem resolveDrug_err_ne (db : DB) (f : Bool) (b : CreateBody) (e : Resp)
    (tr : List StoreCall) (h : resolveDrug db f b = (Except.error e, tr)) :
    e ≠ errResp 500 "link check failed" := by
  unfold resolveDrug at h
  by_cases h1 : b.drugId ≤ 0
  · rw [if_pos h1] at h
    by_cases h2 : b.drugName = ""
    · rw [if_pos h2] at h
      simp only [Prod.mk.injEq, Except.error.injEq] at h
      rw [← h.1]; decide
    · rw [if_neg h2] at h
      by_cases h3 : trimST b.drugName = ""
      · rw [if_pos h3] at h
        simp only [Prod.mk.injEq, Except.error.injEq] at h
        rw [← h.1]; decide
      · rw [if_neg h3] at h
        cases hfc : findOrCreateDrug db f (trimST b.drugName) with
        | error a =>
          rw [hfc] at h
          simp only [Prod.mk.injEq, Except.error.injEq] at h
          rw [← h.1]; decide
        | ok p =>
          rw [hfc] at h
          cases p
          simp at h
  · rw [if_neg h1] at h
    simp at h

/-- The create flow's `500 "link check failed"` branch is dead code for
every store state, failure injection, clock and request. -/
theorem handleCreate_no_link500 (db : DB) (sf : StoreFail) (now : Int)
    (r : Request) :
    (handleCreate db sf now r).1 ≠ errResp 500 "link check failed" := by
  unfold handleCreate
  split
  · simp [errResp]
  · split
    · simp [errResp]
    · split
      · simp [errResp]
      · split
        · simp [errResp]
        · split
          · simp [errResp]
          · split
            · simp [errResp]
            · split
              · next x y heq =>
                have h2 := congrArg Prod.snd heq
                rw [isLinked_snd_none] at h2
                simp at h2
              · split
                · simp [errResp]
                · split
                  · next e tr heq =>
                    exact resolveDrug_err_ne db sf.drugFail _ e tr heq
                  · split
                    · simp [errResp]
                    · simp [errResp]
                    · simp [errResp]

/-- C5: `IsPhysicianPatientLinked` never surfaces an error — its error
component is `none` for every store state and scan outcome — hence the
create handler's 500 "link check failed" branch is unreachable, and an
injected store failure during the link check surfaces as
403 "physician not linked to patient" once the request reaches the check. -/
theorem linkcheck_never_errors
    (dbA : DB) (bfail : Bool) (phy pat : Int)
    (dbB : DB) (sfB : StoreFail) (nowB : Int) (rB : Request)
    (db : DB) (sf : StoreFail) (now : Int) (r : Request)
    (caller : Int) (b : CreateBody)
    (hm : r.method = "POST") (hrole : readRole r.xRole = some Role.physician)
    (hid : readUserID r.xUserId = Except.ok caller)
    (hb : r.body = some b) (hv : validate b = none)
    (hself : b.physicianId = caller) (hfail : sf.linkFail = true) :
    (isPhysicianPatientLinked dbA bfail phy pat).2 = none ∧
    (handleCreate dbB sfB nowB rB).1 ≠ errResp 500 "link check failed" ∧
    (handlePrescriptions db sf now r).1 =
      errResp 403 "physician not linked to patient" := by
  refine ⟨isLinked_snd_none dbA bfail phy pat,
    handleCreate_no_link500 dbB sfB nowB rB, ?_⟩
  have hlink : isPhysicianPatientLinked db sf.linkFail caller b.patientId =
      (false, none) := by
    simp [isPhysicianPatientLinked, scanLinkRow, hfail]
  simp [handlePrescriptions, handleCreate, hm, hrole, hid, hb, hv, hself, hlink]

/-- Witness for C5: a fully valid create request from linked physician 1
for patient 2, with a store failure injected into the link scan. -/
theorem linkcheck_never_errors_witness :
    (isPhysicianPatientLinked c5db false 1 2).2 = none ∧
    (handleCreate c5db noFail 0 c5req).1 ≠ errResp 500 "link check failed" ∧
    (handlePrescriptions c5db ⟨true, false, false⟩ 0 c5req).1 =
      errResp 403 "physician not linked to patient" :=
  linkcheck_never_errors c5db false 1 2 c5db noFail 0 c5req
    c5db ⟨true, false, false⟩ 0 c5req 1 ⟨2, 1, 1, "", 5, "x"⟩
    (by decide) (by decide) rfl (by decide) (by decide) (by decide) (by decide)

/-- In a drug table with pairwise-distinct names, a member row whose name is
`name` makes the name-filter a singleton. -/
theorem filter_name_length_one (name : String) :
    ∀ (l : List DrugRow), (l.map (fun d => d.name)).Nodup →
      ∀ d ∈ l, d.name = name →
        (l.filter (fun x => x.name == name)).length = 1 := by
  intro l
  induction l with
  | nil => intro _ d hd; cases hd
  | cons a tl ih =>
    intro hnd d hd hdname
    rw [List.map_cons, List.nodup_cons] at hnd
    obtain ⟨ha, htl⟩ := hnd
    cases hd with
    | head =>
      have hpa : (a.name == name) = true := by
        rw [hdname]
        exact beq_self_eq_true name
      rw [List.filter_cons, if_pos hpa]
      have hnil : tl.filter (fun x => x.name == name) = [] := by
        rw [List.filter_eq_nil_iff]
        intro x hx hpx
        rw [beq_iff_eq] at hpx
        exact ha (hdname ▸ hpx ▸ List.mem_map_of_mem (fun d => d.name) hx)
      rw [hnil]
      rfl
    | tail _ hmem =>
      have hpa : ¬ (a.name == name) = true := by
        rw [beq_iff_eq]
        intro hx
        exact ha (hx ▸ hdname ▸ List.mem_map_of_mem (fun d => d.name) hmem)
      rw [List.filter_cons, if_neg hpa]
      exact ih htl d hmem hdname

/-- On a successful query, `FindOrCreateDrug` returns the upsert result. -/
theorem findOrCreateDrug_ok (db : DB) (name : String) :
    findOrCreateDrug db false name = Except.ok (drugUpsert db name) := rfl

/-- Core idempotence of the drug upsert: under unique drug names, repeating
the upsert returns the same id and the same store, and the first upsert
leaves exactly one row with the given name. -/
theorem drugUpsert_idem (db : DB) (name : String) (hwf : drugNamesUnique db) :
    (drugUpsert (drugUpsert db name).2 name).1 = (drugUpsert db name).1 ∧
    (drugUpsert (drugUpsert db name).2 name).2 = (drugUpsert db name).2 ∧
    (((drugUpsert db name).2).drugs.filter (fun d => d.name == name)).length = 1 ∧
    (((drugUpsert (drugUpsert db name).2 name).2).drugs.filter
        (fun d => d.name == name)).length = 1 := by
  unfold drugNamesUnique at hwf
  cases hf : db.drugs.find? (fun d => d.name == name) with
  | some d =>
    have hdname : d.name = name := by
      have := List.find?_some hf
      rwa [beq_iff_eq] at this
    have hdmem : d ∈ db.drugs := List.mem_of_find?_eq_some hf
    have hlen : (db.drugs.filter (fun x => x.name == name)).length = 1 :=
      filter_name_length_one name db.drugs hwf d hdmem hdname
    refine ⟨?_, ?_, ?_, ?_⟩
    · simp [drugUpsert, hf]
    · simp [drugUpsert, hf]
    · simpa [drugUpsert, hf] using hlen
    · simpa [drugUpsert, hf] using hlen
  | none =>
    have hall := List.find?_eq_none.mp hf
    have hf2 : (db.drugs ++ [(⟨db.nextDrugId, name⟩ : DrugRow)]).find?
        (fun d => d.name == name) = some ⟨db.nextDrugId, name⟩ := by
      rw [List.find?_append, hf]
      simp [List.find?]
    have hnil : db.drugs.filter (fun x => x.name == name) = [] := by
      rw [List.filter_eq_nil_iff]
      exact hall
    refine ⟨?_, ?_, ?_, ?_⟩ <;>
      simp [drugUpsert, hf, hf2, List.filter_append, hnil]

/-- C6: `FindOrCreateDrug` is idempotent.  For every store whose drug names
are unique (the `UNIQUE` constraint) and every non-empty trimmed name, the
call succeeds with the upsert result, a second call returns the same id and
leaves the store exactly as the first call left it (no new drug row), and
after either call exactly one drug row carries that name. -/
theorem findOrCreateDrug_idempotent (db : DB) (name : String)
    (_hname : name ≠ "") (hwf : drugNamesUnique db) :
    findOrCreateDrug db false name = Except.ok (drugUpsert db name) ∧
    (drugUpsert (drugUpsert db name).2 name).1 = (drugUpsert db name).1 ∧
    (drugUpsert (drugUpsert db name).2 name).2 = (drugUpsert db name).2 ∧
    (((drugUpsert db name).2).drugs.filter (fun d => d.name == name)).length = 1 ∧
    (((drugUpsert (drugUpsert db name).2 name).2).drugs.filter
        (fun d => d.name == name)).length = 1 :=
  ⟨findOrCreateDrug_ok db name, drugUpsert_idem db name hwf⟩

/-- Witness for C6: a store already holding one drug, upserting a new name. -/
theorem findOrCreateDrug_idempotent_witness :
    findOrCreateDrug c6db false "Ibuprofen" =
      Except.ok (drugUpsert c6db "Ibuprofen") ∧
    (drugUpsert (drugUpsert c6db "Ibuprofen").2 "Ibuprofen").1 =
      (drugUpsert c6db "Ibuprofen").1 ∧
    (drugUpsert (drugUpsert c6db "Ibuprofen").2 "Ibuprofen").2 =
      (drugUpsert c6db "Ibuprofen").2 ∧
    (((drugUpsert c6db "Ibuprofen").2).drugs.filter
        (fun d => d.name == "Ibuprofen")).length = 1 ∧
    (((drugUpsert (drugUpsert c6db "Ibuprofen").2 "Ibuprofen").2).drugs.filter
        (fun d => d.name == "Ibuprofen")).length = 1 :=
  findOrCreateDrug_idempotent c6db "Ibuprofen" (by decide)
    (by unfold drugNamesUnique; decide)

/-- Unfolding of the top-drugs WHERE clause: a prescription is selected iff
its timestamp lies in the half-open interval `[tFrom, tTo)` and, when a
patient restriction is set, it belongs to that patient. -/
theorem rxInRange_iff (tFrom tTo : Int) (pid : Option Int) (p : RxRow) :
    rxInRange tFrom tTo pid p = true ↔
      tFrom ≤ p.prescribedAt ∧ p.prescribedAt < tTo ∧
        (∀ x, pid = some x → p.patientId = x) := by
  cases pid with
  | none => simp [rxInRange]
  | some y => simp [rxInRange, and_assoc]

/-- A non-empty list of positive integers has a positive sum. -/
theorem sum_pos_of_mem_pos (l : List Int) (hne : l ≠ [])
    (hpos : ∀ x ∈ l, 0 < x) : 0 < l.sum := by
  cases l with
  | nil => exact absurd rfl hne
  | cons a tl =>
    have ha := hpos a (List.mem_cons_self a tl)
    have htl : (0 : Int) ≤ tl.sum :=
      List.sum_nonneg (fun x hx => le_of_lt (hpos x (List.mem_cons_of_mem a hx)))
    rw [List.sum_cons]
    omega

/-- Membership in the grouped aggregates: exactly the drugs with at least
one selected prescription, with the group quantity sum. -/
theorem mem_tdGroups_iff (db : DB) (tFrom tTo : Int) (pid : Option Int)
    (e : TopDrug) :
    e ∈ tdGroups db tFrom tTo pid ↔
      ∃ d ∈ db.drugs,
        (tdMatching db tFrom tTo pid).filter (fun p => p.drugId == d.id) ≠ [] ∧
        e = ⟨d.id, d.name,
          (((tdMatching db tFrom tTo pid).filter
              (fun p => p.drugId == d.id)).map (fun p => p.quantity)).sum⟩ := by
  unfold tdGroups
  rw [List.mem_filterMap]
  constructor
  · rintro ⟨d, hd, hsome⟩
    by_cases hemp :
        ((tdMatching db tFrom tTo pid).filter (fun p => p.drugId == d.id)).isEmpty
    · rw [if_pos hemp] at hsome
      cases hsome
    · rw [if_neg hemp] at hsome
      refine ⟨d, hd, ?_, (Option.some.inj hsome).symm⟩
      intro hnil
      exact hemp (List.isEmpty_iff.mpr hnil)
  · rintro ⟨d, hd, hne, rfl⟩
    refine ⟨d, hd, ?_⟩
    rw [if_neg (fun hemp => hne (List.isEmpty_iff.mp hemp))]

/-- C7: `TopDrugs` returns at most `limit` aggregates, ordered by total
quantity descending with ties broken by drug id ascending; every returned
aggregate's total is the quantity sum of the prescriptions of that drug with
`prescribed_at` in `[from, to)` under the optional patient restriction, is
strictly positive (given the `quantity > 0` store invariant), and stems from
a drug with at least one selected prescription; and whenever the number of
qualifying drugs fits into `limit`, every drug with a selected prescription
appears. -/
theorem topDrugs_characterization (db : DB) (tFrom tTo limit : Int)
    (pid : Option Int) (hq : quantitiesPositive db) :
    (topDrugs db tFrom tTo limit pid).length ≤ limit.toNat ∧
    List.Sorted tdLE (topDrugs db tFrom tTo limit pid) ∧
    (∀ e ∈ topDrugs db tFrom tTo limit pid,
      e.totalQty = (((tdMatching db tFrom tTo pid).filter
          (fun p => p.drugId == e.drugId)).map (fun p => p.quantity)).sum ∧
      0 < e.totalQty ∧
      (∃ d ∈ db.drugs, d.id = e.drugId ∧ d.name = e.drugName) ∧
      (∃ p ∈ db.prescriptions,
        tFrom ≤ p.prescribedAt ∧ p.prescribedAt < tTo ∧
        (∀ x, pid = some x → p.patientId = x) ∧ p.drugId = e.drugId)) ∧
    ((tdGroups db tFrom tTo pid).length ≤ limit.toNat →
      ∀ d ∈ db.drugs,
        (∃ p ∈ db.prescriptions,
          tFrom ≤ p.prescribedAt ∧ p.prescribedAt < tTo ∧
          (∀ x, pid = some x → p.patientId = x) ∧ p.drugId = d.id) →
        ∃ e ∈ topDrugs db tFrom tTo limit pid, e.drugId = d.id) := by
  refine ⟨?_, ?_, ?_, ?_⟩
  · unfold topDrugs
    rw [List.length_take]
    exact min_le_left _ _
  · unfold topDrugs
    exact List.Pairwise.sublist (List.take_sublist _ _)
      (List.sorted_insertionSort tdLE _)
  · intro e he
    have heg : e ∈ tdGroups db tFrom tTo pid := by
      have h1 : e ∈ List.insertionSort tdLE (tdGroups db tFrom tTo pid) :=
        (List.take_sublist _ _).subset he
      exact (List.mem_insertionSort tdLE).mp h1
    obtain ⟨d, hd, hne, rfl⟩ := (mem_tdGroups_iff db tFrom tTo pid _).mp heg
    refine ⟨rfl, ?_, ⟨d, hd, rfl, rfl⟩, ?_⟩
    · apply sum_pos_of_mem_pos
      · rw [Ne, List.map_eq_nil_iff]
        exact hne
      · intro x hx
        obtain ⟨p, hp, rfl⟩ := List.mem_map.mp hx
        have hp1 := (List.mem_filter.mp hp).1
        have hp2 := (List.mem_filter.mp hp1).1
        exact hq p hp2
    · obtain ⟨p, hp⟩ := List.exists_mem_of_ne_nil _ hne
      obtain ⟨hp1, hpd⟩ := List.mem_filter.mp hp
      obtain ⟨hp2, hpr⟩ := List.mem_filter.mp hp1
      obtain ⟨hle, hlt, hpat⟩ := (rxInRange_iff tFrom tTo pid p).mp hpr
      exact ⟨p, hp2, hle, hlt, hpat, by rwa [beq_iff_eq] at hpd⟩
  · intro hlen d hd hex
    obtain ⟨p, hp, hle, hlt, hpat, hpd⟩ := hex
    have hpm : p ∈ (tdMatching db tFrom tTo pid).filter
        (fun q => q.drugId == d.id) := by
      rw [List.mem_filter]
      refine ⟨?_, by rw [beq_iff_eq]; exact hpd⟩
      rw [tdMatching, List.mem_filter]
      exact ⟨hp, (rxInRange_iff tFrom tTo pid p).mpr ⟨hle, hlt, hpat⟩⟩
    have hne : (tdMatching db tFrom tTo pid).filter
        (fun q => q.drugId == d.id) ≠ [] := by
      intro hnil
      rw [hnil] at hpm
      cases hpm
    have heg : (⟨d.id, d.name,
        (((tdMatching db tFrom tTo pid).filter
            (fun q => q.drugId == d.id)).map (fun q => q.quantity)).sum⟩ :
          TopDrug) ∈ tdGroups db tFrom tTo pid :=
      (mem_tdGroups_iff db tFrom tTo pid _).mpr ⟨d, hd, hne, rfl⟩
    refine ⟨⟨d.id, d.name,
      (((tdMatching db tFrom tTo pid).filter
          (fun q => q.drugId == d.id)).map (fun q => q.quantity)).sum⟩, ?_, rfl⟩
    unfold topDrugs
    rw [List.take_of_length_le]
    · exact (List.mem_insertionSort tdLE).mpr heg
    · rw [List.length_insertionSort]
      exact hlen

/-- Witness for C7: a store with prescriptions exactly at `from = 0` and
exactly at `to = 10`. -/
theorem topDrugs_characterization_witness :
    (topDrugs c7db 0 10 10 none).length ≤ (10 : Int).toNat ∧
    List.Sorted tdLE (topDrugs c7db 0 10 10 none) ∧
    (∀ e ∈ topDrugs c7db 0 10 10 none,
      e.totalQty = (((tdMatching c7db 0 10 none).filter
          (fun p => p.drugId == e.drugId)).map (fun p => p.quantity)).sum ∧
      0 < e.totalQty ∧
      (∃ d ∈ c7db.drugs, d.id = e.drugId ∧ d.name = e.drugName) ∧
      (∃ p ∈ c7db.prescriptions,
        0 ≤ p.prescribedAt ∧ p.prescribedAt < 10 ∧
        (∀ x, (none : Option Int) = some x → p.patientId = x) ∧
        p.drugId = e.drugId)) ∧
    ((tdGroups c7db 0 10 none).length ≤ (10 : Int).toNat →
      ∀ d ∈ c7db.drugs,
        (∃ p ∈ c7db.prescriptions,
          0 ≤ p.prescribedAt ∧ p.prescribedAt < 10 ∧
          (∀ x, (none : Option Int) = some x → p.patientId = x) ∧
          p.drugId = d.id) →
        ∃ e ∈ topDrugs c7db 0 10 10 none, e.drugId = d.id) :=
  topDrugs_characterization c7db 0 10 10 none
    (by unfold quantitiesPositive; decide)

/-- Counterexample to C8: a GET /prescriptions request carrying `limit=0`
but no `X-Role` header is answered 401, not 400 — the role gate runs before
the limit check. -/
theorem bad_limit_not_always_400 :
    (handlePrescriptions dbEmpty noFail 0 c8req).1 =
      errResp 401 "invalid or missing X-Role header" ∧
    (handlePrescriptions dbEmpty noFail 0 c8req).1.status ≠ 400 := by decide

/-- C8 amended: for every GET request with a valid `X-Role` header whose
`limit` query parameter is present with a non-empty value that is
non-numeric, zero, negative or above the cap (200 for /prescriptions, 100
for /analytics/top-drugs), the response is 400; the value is never clamped
into range. -/
theorem bad_limit_rejected_with_valid_role (db : DB) (sf : StoreFail)
    (now : Int) (parse : String → Option Int)
    (r1 r2 : Request) (role1 role2 : Role)
    (hm1 : r1.method = "GET") (hrole1 : readRole r1.xRole = some role1)
    (hl1 : r1.qLimit ≠ "")
    (hbad1 : ∀ n, parseInt64 r1.qLimit = some n → n ≤ 0 ∨ 200 < n)
    (hm2 : r2.method = "GET") (hrole2 : readRole r2.xRole = some role2)
    (hl2 : r2.qLimit ≠ "")
    (hbad2 : ∀ n, parseInt64 r2.qLimit = some n → n ≤ 0 ∨ 100 < n) :
    (handlePrescriptions db sf now r1).1.status = 400 ∧
    (handleTopDrugs parse db r2).1.status = 400 := by
  constructor
  · have hll : listLimit r1.qLimit = none := by
      unfold listLimit
      rw [if_neg hl1]
      cases hp : parseInt64 r1.qLimit with
      | none => rfl
      | some n =>
        have := hbad1 n hp
        dsimp only
        rw [if_neg (by omega)]
    simp [handlePrescriptions, hm1, handleList, hrole1, hll, errResp]
  · have htl : topLimit r2.qLimit = none := by
      unfold topLimit
      rw [if_neg hl2]
      cases hp : parseInt64 r2.qLimit with
      | none => rfl
      | some n =>
        have := hbad2 n hp
        dsimp only
        rw [if_neg (by omega)]
    unfold handleTopDrugs
    rw [if_neg (by rw [hm2]; simp), hrole2]
    dsimp only
    by_cases hft : r2.qFrom = "" ∨ r2.qTo = ""
    · rw [if_pos hft]
      rfl
    · rw [if_neg hft]
      cases hpf : parse r2.qFrom with
      | none => rfl
      | some f =>
        cases hpt : parse r2.qTo with
        | none => rfl
        | some t =>
          dsimp only
          by_cases hr : f < t
          · rw [if_neg (by simpa using hr), htl]
            rfl
          · rw [if_pos (by simpa using hr)]
            rfl

/-- Witness for the amended C8: an admin sending `limit=0` to
/prescriptions and `limit=101` to /analytics/top-drugs. -/
theorem bad_limit_rejected_with_valid_role_witness :
    (handlePrescriptions dbEmpty noFail 0 c8r1).1.status = 400 ∧
    (handleTopDrugs parseW dbEmpty c8r2).1.status = 400 :=
  bad_limit_rejected_with_valid_role dbEmpty noFail 0 parseW c8r1 c8r2
    Role.admin Role.admin (by decide) (by decide) (by decide)
    (fun n h => by
      rw [(by decide : parseInt64 c8r1.qLimit = some (0 : Int))] at h
      injection h with h2
      omega)
    (by decide) (by decide) (by decide)
    (fun n h => by
      rw [(by decide : parseInt64 c8r2.qLimit = some (101 : Int))] at h
      injection h with h2
      omega)

/-- C9: `ListPrescriptions` returns at most the clamped limit of rows,
ordered newest-first by `prescribed_at` with ties broken by id descending,
where the clamped limit is the filter limit when it lies in [1,200] and 50
when it is unset (zero) or out of range. -/
theorem listPrescriptions_limit_and_order (db : DB) (f : ListFilter) :
    (listPrescriptions db f).length ≤ effLimit f.limit ∧
    List.Sorted rxLE (listPrescriptions db f) ∧
    effLimit f.limit =
      (if 1 ≤ f.limit ∧ f.limit ≤ 200 then f.limit.toNat else 50) := by
  refine ⟨?_, ?_, ?_⟩
  · unfold listPrescriptions
    rw [List.length_take]
    exact min_le_left _ _
  · unfold listPrescriptions
    exact List.Pairwise.sublist (List.take_sublist _ _)
      (List.sorted_insertionSort rxLE _)
  · unfold effLimit
    split_ifs <;> omega

/-- Counterexample to C10: two create requests whose `drug_name` values
differ only in letter case both succeed but resolve to two distinct drug
rows with distinct ids — case is NOT normalized before lookup-or-insert. -/
theorem drug_name_case_not_normalized :
    (handlePrescriptions c10db noFail 0 c10reqA).1.status = 201 ∧
    (handlePrescriptions c10db1 noFail 0 c10reqB).1.status = 201 ∧
    c10db1.drugs = [⟨1, "Aspirin"⟩] ∧
    c10db2.drugs = [⟨1, "Aspirin"⟩, ⟨2, "aspirin"⟩] := by decide

/-- C10 amended: drug resolution during creation normalizes the supplied
`drug_name` by trimming leading/trailing spaces and tabs only (it is
case-sensitive): two bodies whose names have the same space/tab-trimmed
form resolve to the same drug id, the second resolution leaves the store
unchanged, and no second drug row with that name exists. -/
theorem drug_resolution_trims_spaces_tabs (db : DB) (b1 b2 : CreateBody)
    (hwf : drugNamesUnique db)
    (h1 : b1.drugId ≤ 0) (h2 : b2.drugId ≤ 0)
    (heq : trimST b1.drugName = trimST b2.drugName)
    (hne : trimST b1.drugName ≠ "") :
    ∃ id db1,
      (resolveDrug db false b1).1 = Except.ok (id, db1) ∧
      (resolveDrug db1 false b2).1 = Except.ok (id, db1) ∧
      (db1.drugs.filter (fun d => d.name == trimST b1.drugName)).length = 1 := by
  have hne2 : trimST b2.drugName ≠ "" := heq ▸ hne
  have hn1 : b1.drugName ≠ "" := fun h => hne (by rw [h]; rfl)
  have hn2 : b2.drugName ≠ "" := fun h => hne2 (by rw [h]; rfl)
  obtain ⟨hid, hdb, hcount, -⟩ := drugUpsert_idem db (trimST b1.drugName) hwf
  rcases hup1 : drugUpsert db (trimST b1.drugName) with ⟨id1, db1⟩
  rw [hup1] at hid hdb hcount
  dsimp only at hid hdb hcount
  refine ⟨id1, db1, ?_, ?_, hcount⟩
  · unfold resolveDrug
    rw [if_pos h1, if_neg hn1, if_neg hne, findOrCreateDrug_ok, hup1]
  · unfold resolveDrug
    rw [if_pos h2, if_neg hn2, if_neg hne2, findOrCreateDrug_ok, ← heq]
    have hup2 : drugUpsert db1 (trimST b1.drugName) = (id1, db1) :=
      Prod.ext hid hdb
    rw [hup2]

/-- Witness for the amended C10: `" Aspirin"` and `"Aspirin\t"` share the
trimmed form `"Aspirin"`. -/
theorem drug_resolution_trims_spaces_tabs_witness :
    ∃ id db1,
      (resolveDrug c10db false ⟨1, 1, 0, " Aspirin", 1, "x"⟩).1 =
        Except.ok (id, db1) ∧
      (resolveDrug db1 false ⟨1, 1, 0, "Aspirin\t", 1, "x"⟩).1 =
        Except.ok (id, db1) ∧
      (db1.drugs.filter
          (fun d => d.name == trimST " Aspirin")).length = 1 :=
  drug_resolution_trims_spaces_tabs c10db ⟨1, 1, 0, " Aspirin", 1, "x"⟩
    ⟨1, 1, 0, "Aspirin\t", 1, "x"⟩ (by unfold drugNamesUnique; decide)
    (by decide) (by decide) (by decide) (by decide)

end HealthCare
